import Mathlib

/-!
Verification of the Bird.com inbound-SMS webhook handler.

A shallow embedding of the inbound-message processor of the SMS-Auto
repository: the `POST /bird-sms-webhook` handler, its payload extractors,
the STOP/UNSUB/LOVE keyword workflows, and the reply-delivery fallback
chain (`sendSMSInConversation`), together with the Airtable record-store
operations they call.

Modelling conventions:
* JSON values are the inductive `JValue`; JavaScript member access `x.k`
  is `jGet` (returning `none` for `undefined`), `a || b` chains are
  `jsChain`/`jsOr`, and JS truthiness is `jTruthy`.
* Collaborator calls (Airtable, Stripe, the Bird messaging API) are
  synchronous calls that either complete or throw.  A `Faults` record is
  the per-request oracle saying which calls throw; a throwing call
  performs no state change.  Every attempted collaborator call is
  recorded, in call order, in a `List Effect` trace.
* The processed-message-id cache is `Set<string>` in the source and
  `extractMessageId` is declared `string | null`, so message ids are
  modelled as `String`; a truthy non-string id field is outside the model.
* `getMessageTemplates` (content.ts) catches internally and falls back to
  default templates, so it never throws; templates are an environment
  parameter.  API credentials are assumed configured (the workspace id
  has a hard-coded default in the source).
* Log statements, timestamps and the `processingTimeMs` response field
  are elided; they carry no control flow.
-/

/-- A JSON value, as produced by `JSON.parse`. -/
inductive JValue where
  | jnull
  | jbool (b : Bool)
  | jnum (n : Int)
  | jstr (s : String)
  | jarr (elems : List JValue)
  | jobj (fields : List (String × JValue))

/-- JavaScript member access `v.k`: field lookup on objects, `undefined`
(`none`) on everything else. -/
def jGet : JValue → String → Option JValue
  | .jobj fields, k => (fields.find? (fun p => p.1 == k)).map (fun p => p.2)
  | _, _ => none

/-- JavaScript truthiness of a value. -/
def jTruthy : JValue → Bool
  | .jnull => false
  | .jbool b => b
  | .jnum n => n != 0
  | .jstr s => s != ""
  | .jarr _ => true
  | .jobj _ => true

/-- Truthiness of a possibly-`undefined` value. -/
def oTruthy : Option JValue → Bool
  | none => false
  | some v => jTruthy v

/-- JavaScript `a || b` on possibly-`undefined` values. -/
def jsOr (a b : Option JValue) : Option JValue :=
  if oTruthy a then a else b

/-- A fallback chain `x₁ || x₂ || ... || dflt` ending in a literal. -/
def jsChain : List (Option JValue) → JValue → JValue
  | [], dflt => dflt
  | x :: rest, dflt =>
    match x with
    | some v => if jTruthy v then v else jsChain rest dflt
    | none => jsChain rest dflt

/-- Strict equality `v === "s"` against a string literal, on a
possibly-`undefined` value. -/
def jStrEq (v : Option JValue) (s : String) : Bool :=
  match v with
  | some (.jstr t) => t == s
  | _ => false

mutual
/-- JavaScript `String(v)` coercion (arrays join their elements with
commas; `null` elements coerce to the empty string). -/
def jToString : JValue → String
  | .jnull => "null"
  | .jbool b => cond b "true" "false"
  | .jnum n => toString n
  | .jstr s => s
  | .jarr elems => String.intercalate "," (jToStringElems elems)
  | .jobj _ => "[object Object]"

def jToStringElems : List JValue → List String
  | [] => []
  | .jnull :: rest => "" :: jToStringElems rest
  | v :: rest => jToString v :: jToStringElems rest
end

mutual
/-- Model of `JSON.stringify` (string escaping elided; no value in this
development ever has quotes inside keys or strings). -/
def jStringify : JValue → String
  | .jnull => "null"
  | .jbool b => cond b "true" "false"
  | .jnum n => toString n
  | .jstr s => "\"" ++ s ++ "\""
  | .jarr elems => "[" ++ String.intercalate "," (jStringifyElems elems) ++ "]"
  | .jobj fields => "\x7b" ++ String.intercalate "," (jStringifyFields fields) ++ "\x7d"

def jStringifyElems : List JValue → List String
  | [] => []
  | v :: rest => jStringify v :: jStringifyElems rest

def jStringifyFields : List (String × JValue) → List String
  | [] => []
  | (k, v) :: rest => ("\"" ++ k ++ "\":" ++ jStringify v) :: jStringifyFields rest
end

/-- Model of `.toUpperCase()` — per-character ASCII uppercasing, which is
how `toUpperCase` behaves on the keyword alphabet (implemented over the
character list so that proofs can evaluate it). -/
def jsToUpper (s : String) : String :=
  String.mk (s.data.map Char.toUpper)

/-- The characters matched by the JavaScript `\s` class that can occur in
phone-number strings (ASCII whitespace). -/
def isJsSpace (c : Char) : Bool :=
  c == ' ' || c == '\t' || c == '\n' || c == '\r'

/-- Model of `.trim()` — drop ASCII whitespace from both ends
(implemented over the character list so that proofs can evaluate it). -/
def jsTrim (s : String) : String :=
  String.mk (((s.data.dropWhile isJsSpace).reverse.dropWhile isJsSpace).reverse)

/-- Model of `phoneNumber.startsWith('+')`. -/
def startsWithPlus (s : String) : Bool :=
  match s.data with
  | [] => false
  | ch :: _ => ch == '+'

/-- Model of `phoneNumber.replace(/\s+/g, '').trim()` — strip all
whitespace, then trim (a no-op after the strip, kept for faithfulness). -/
def stripWs (s : String) : String :=
  jsTrim (String.mk (s.data.filter (fun c => !isJsSpace c)))

/-- Source function `extractMessageId`: the
`msg.id || msg.messageId || ... || null` chain.  The result is declared
`string | null` in the source and is stored in a `Set<string>`, so only
string ids are modelled; the chain returns the first truthy field. -/
def extractMessageId (msg : JValue) : Option String :=
  match jsOr (jGet msg "id") (jsOr (jGet msg "messageId") (jsOr (jGet msg "message_id")
      (jsOr (jGet msg "eventId") (jsOr (jGet msg "event_id")
      (jsOr (jGet msg "webhookId") (jsOr (jGet msg "webhook_id") none)))))) with
  | some (.jstr s) => some s
  | _ => none

/-- Source function `extractSenderNumber`: prioritized fallback over the
Conversations API, contact-object and classic SMS payload shapes.
Returns the raw chain value (typed `string` in the source, but fed
arbitrary field values). -/
def extractSenderNumber (msg : JValue) : JValue :=
  if oTruthy (jGet msg "sender") then
    let sender := (jGet msg "sender").getD .jnull
    if oTruthy (jGet sender "contact") then
      let ct := (jGet sender "contact").getD .jnull
      jsChain [jGet ct "identifierValue", jGet ct "platformAddress",
               jGet ct "msisdn", jGet ct "phoneNumber"] (.jstr "")
    else
      jsChain [jGet sender "identifierValue", jGet sender "platformAddress",
               jGet sender "msisdn", jGet sender "phoneNumber"] (.jstr "")
  else if oTruthy (jGet msg "contact") then
    let ct := (jGet msg "contact").getD .jnull
    jsChain [jGet ct "identifierValue", jGet ct "platformAddress",
             jGet ct "msisdn", jGet ct "phoneNumber"] (.jstr "")
  else
    jsChain [jGet msg "from", jGet msg "originator", jGet msg "phoneNumber",
             jGet msg "phone", jGet msg "msisdn", jGet msg "source"] (.jstr "Unknown")

/-- Source function `extractRecipientNumber`: extracted by the handler
but only logged — it is never validated and never gates processing. -/
def extractRecipientNumber (msg : JValue) : JValue :=
  if oTruthy (jGet msg "recipient") then
    let recipient := (jGet msg "recipient").getD .jnull
    if oTruthy (jGet recipient "contact") then
      let ct := (jGet recipient "contact").getD .jnull
      jsChain [jGet ct "identifierValue", jGet ct "platformAddress",
               jGet ct "msisdn"] (.jstr "")
    else
      jsChain [jGet recipient "identifierValue", jGet recipient "platformAddress",
               jGet recipient "msisdn"] (.jstr "")
  else
    jsChain [jGet msg "to", jGet msg "destination", jGet msg "recipient"] (.jstr "")

/-- Tail of the `extractMessageText` chain: `msg.message`, `msg.text`, a
string-typed `msg.content`, `JSON.stringify(msg.body)` for object
bodies, else the empty string. -/
def restOfMessageText (msg : JValue) : String :=
  if oTruthy (jGet msg "message") then jToString ((jGet msg "message").getD .jnull)
  else if oTruthy (jGet msg "text") then jToString ((jGet msg "text").getD .jnull)
  else
    match jGet msg "content" with
    | some (.jstr s) => s
    | _ =>
      match jGet msg "body" with
      | some (.jobj fields) => jStringify (.jobj fields)
      | some (.jarr elems) => jStringify (.jarr elems)
      | _ => ""

/-- Source function `extractMessageText`: the ordered fallback over
Channels API, Conversations API and classic shapes; every return path
yields a string (via `String(...)` coercion). -/
def extractMessageText (msg : JValue) : String :=
  let bodyV := jGet msg "body"
  -- `if (msg.body) { if (msg.body.text) {...} if (typeof msg.body === 'string') {...} }`
  let fromBody : Option String :=
    if oTruthy bodyV then
      let b := bodyV.getD .jnull
      let fromText : Option String :=
        if oTruthy (jGet b "text") then
          match (jGet b "text").getD .jnull with
          | .jstr s => some s
          | other =>
            if oTruthy (jGet other "text") then
              some (jToString ((jGet other "text").getD .jnull))
            else none
        else none
      match fromText with
      | some s => some s
      | none =>
        match b with
        | .jstr s => some s
        | _ => none
    else none
  match fromBody with
  | some s => s
  | none =>
    if oTruthy ((jGet msg "preview").bind (fun p => jGet p "text")) then
      jToString (((jGet msg "preview").bind (fun p => jGet p "text")).getD .jnull)
    else if oTruthy (jGet msg "content") then
      match (jGet msg "content").getD .jnull with
      | .jstr s => s
      | other =>
        if oTruthy (jGet other "text") then
          jToString ((jGet other "text").getD .jnull)
        else restOfMessageText msg
    else restOfMessageText msg

/-- Source function `extractConversationId`: the fallback chain over
payload and body, filtered by truthiness (the `|| null` tail), coerced
to the string used in the send-message URL. -/
def extractConversationId (body payload : JValue) : Option String :=
  let v := jsOr (jGet payload "conversationId") (jsOr (jGet payload "conversation_id")
    (jsOr ((jGet payload "conversation").bind (fun c => jGet c "id"))
    (jsOr (jGet body "conversationId") (jsOr (jGet body "conversation_id")
    (jsOr ((jGet body "conversation").bind (fun c => jGet c "id"))
    (jsOr ((jGet payload "context").bind (fun c => jGet c "conversationId"))
    (jsOr ((jGet payload "context").bind (fun c => jGet c "conversation_id")) none)))))))
  match v with
  | some jv => if jTruthy jv then some (jToString jv) else none
  | none => none

/-! ## The Record Store (Airtable) and its operations -/

/-- One row of the Phone Numbers table: phone number and latest message
(the timestamp column is elided).  Record ids are modelled as naturals. -/
structure PhoneRec where
  rid : Nat
  phone : String
  message : String
deriving DecidableEq

/-- One row of the Payments table.  Airtable fields may be absent, hence
`Option`; an external identifier is "cleared" by writing the empty
string. -/
structure PaymentRec where
  rid : Nat
  phone : String
  tier : Option String := none
  amount : Option Int := none
  status : Option String := none
  stripeCustomerId : Option String := none
  stripeSubscriptionId : Option String := none
  stripePaymentIntentId : Option String := none
  stripeSessionId : Option String := none
deriving DecidableEq

/-- The Record Store state: the two tables plus a fresh-id counter. -/
structure RecordStore where
  phones : List PhoneRec
  payments : List PaymentRec
  nextRid : Nat
deriving DecidableEq

/-- Source function `findByPhone` (airtable.ts): `null` for an empty
phone, else the first record whose Phone Number field equals the
argument. -/
def findByPhone (s : RecordStore) (phoneNumber : String) : Option PhoneRec :=
  if phoneNumber = "" then none
  else s.phones.find? (fun r => r.phone == phoneNumber)

/-- Source function `createPhoneRecord` (airtable.ts): append a fresh
record with the given phone and message. -/
def createPhoneRecord (s : RecordStore) (phoneNumber message : String) : RecordStore :=
  { s with phones := s.phones.concat ⟨s.nextRid, phoneNumber, message⟩,
           nextRid := s.nextRid + 1 }

/-- Source function `updatePhoneRecord` (airtable.ts): overwrite the
phone and message of the record with the given id. -/
def updatePhoneRecord (s : RecordStore) (rid : Nat) (phoneNumber message : String) :
    RecordStore :=
  { s with phones := s.phones.map (fun r =>
      if r.rid == rid then { r with phone := phoneNumber, message := message } else r) }

/-- Modelled from the spec: `find_payment_by_phone(phone) -> Record|null`
— the source calls `airtableService.findPaymentByPhone`, whose
implementation is not among the provided source files; per the spec it
is a query-by-field lookup returning the matching Payment Record or
null. -/
def findPaymentByPhone (s : RecordStore) (phoneNumber : String) : Option PaymentRec :=
  s.payments.find? (fun r => r.phone == phoneNumber)

/-- The partial field update accepted by `updatePaymentRecord`: only
defined fields are written. -/
structure PaymentPatch where
  tier : Option String := none
  amount : Option Int := none
  status : Option String := none
  stripeCustomerId : Option String := none
  stripeSubscriptionId : Option String := none
  stripePaymentIntentId : Option String := none
  stripeSessionId : Option String := none

/-- Apply a patch to one record: a defined patch field overwrites, an
undefined one keeps the old value (airtable.ts sets only the keys whose
values are not `undefined`). -/
def applyPaymentPatch (r : PaymentRec) (p : PaymentPatch) : PaymentRec :=
  { r with
    tier := p.tier.or r.tier,
    amount := p.amount.or r.amount,
    status := p.status.or r.status,
    stripeCustomerId := p.stripeCustomerId.or r.stripeCustomerId,
    stripeSubscriptionId := p.stripeSubscriptionId.or r.stripeSubscriptionId,
    stripePaymentIntentId := p.stripePaymentIntentId.or r.stripePaymentIntentId,
    stripeSessionId := p.stripeSessionId.or r.stripeSessionId }

/-- Source function `updatePaymentRecord` (airtable.ts): patch the
record with the given id. -/
def updatePaymentRecord (s : RecordStore) (rid : Nat) (p : PaymentPatch) : RecordStore :=
  { s with payments := s.payments.map (fun r =>
      if r.rid == rid then applyPaymentPatch r p else r) }

/-! ## Collaborator fault oracle and effect traces -/

/-- Outcome of the direct-conversation `fetch` in
`sendSMSInConversation`: HTTP success, an unsuccessful HTTP response
(`!response.ok`, which falls through to `sendSMS`), or a thrown error
(network failure, which jumps to the catch block). -/
inductive ConvOutcome where
  | ok
  | httpError
  | threw
deriving DecidableEq

/-- Per-request oracle deciding which collaborator calls throw.  A
throwing call performs no state change. -/
structure Faults where
  findByPhoneThrows : Bool := false
  phoneWriteThrows : Bool := false
  findPaymentThrows : Bool := false
  stripeCancelThrows : Bool := false
  paymentUpdateThrows : Bool := false
  convSend : ConvOutcome := .ok
  sendSMSThrows : Bool := false
  sendDirectThrows : Bool := false
deriving DecidableEq

/-- A request with no collaborator failures. -/
def noFaults : Faults := {}

/-- Which Bird delivery route an outbound attempt used. -/
inductive SendPath where
  | conv (conversationId : String)
  | findOrCreate
  | direct
deriving DecidableEq

/-- One attempted collaborator call, recorded in call order whether or
not the call succeeded. -/
inductive Effect where
  | findPhone (phone : String)
  | phoneWrite (phone message : String)
  | findPayment (phone : String)
  | stripeCancel (subscriptionId : String)
  | paymentWrite (rid : Nat)
  | sendAttempt (path : SendPath) (phone text : String)
deriving DecidableEq

/-- Truthiness of a possibly-absent string field (JS `!x` on a string or
undefined). -/
def strTruthy : Option String → Bool
  | some s => s != ""
  | none => false

/-! ## Outbound messaging (bird.ts) and the reply fallback chain -/

/-- Result of an outbound-reply helper: whether it reported success, and
the attempts it made. -/
structure SendOut where
  ok : Bool
  trace : List Effect
deriving DecidableEq

/-- Source function `sendSMSInConversation` (webhook route): (a) if a
conversation id is present, POST into that conversation — on HTTP
success return true, on an unsuccessful response fall through; (b) call
`sendSMS` (find-or-create conversation, bird.ts) and return true if it
does not throw; any thrown error (including a throwing conversation
fetch) lands in the catch block, which (c) tries `sendSMSDirect`
(channel-level send) and returns false only if that also throws. -/
def sendSMSInConversation (phoneNumber message : String) (conversationId : Option String)
    (f : Faults) : SendOut :=
  let normalizedPhone :=
    if startsWithPlus phoneNumber then jsTrim phoneNumber else "+" ++ jsTrim phoneNumber
  match conversationId with
  | some cid =>
    match f.convSend with
    | .ok => ⟨true, [.sendAttempt (.conv cid) phoneNumber message]⟩
    | .httpError =>
      if f.sendSMSThrows then
        ⟨!f.sendDirectThrows,
         [.sendAttempt (.conv cid) phoneNumber message,
          .sendAttempt .findOrCreate normalizedPhone message,
          .sendAttempt .direct phoneNumber message]⟩
      else
        ⟨true, [.sendAttempt (.conv cid) phoneNumber message,
                .sendAttempt .findOrCreate normalizedPhone message]⟩
    | .threw =>
      ⟨!f.sendDirectThrows,
       [.sendAttempt (.conv cid) phoneNumber message,
        .sendAttempt .direct phoneNumber message]⟩
  | none =>
    if f.sendSMSThrows then
      ⟨!f.sendDirectThrows,
       [.sendAttempt .findOrCreate normalizedPhone message,
        .sendAttempt .direct phoneNumber message]⟩
    else
      ⟨true, [.sendAttempt .findOrCreate normalizedPhone message]⟩

/-- Message templates, as returned by `getMessageTemplates` (content.ts
catches internally and falls back to defaults, so the call never
throws). -/
structure Templates where
  loveReply : String
  unsubReply : String
  stopReply : String
deriving DecidableEq

/-- Process environment: the base URL used in the LOVE welcome link
(`NGROK_URL` with a trailing slash removed, or the localhost default). -/
structure Env where
  baseUrl : String
deriving DecidableEq

/-- Hex digit for percent-encoding. -/
def hexDigit (n : Nat) : Char :=
  if n < 10 then Char.ofNat (48 + n) else Char.ofNat (55 + n)

/-- UTF-8 bytes of a code point. -/
def utf8Bytes (n : Nat) : List Nat :=
  if n < 128 then [n]
  else if n < 2048 then [192 + n / 64, 128 + n % 64]
  else if n < 65536 then [224 + n / 4096, 128 + (n / 64) % 64, 128 + n % 64]
  else [240 + n / 262144, 128 + (n / 4096) % 64, 128 + (n / 64) % 64, 128 + n % 64]

/-- Model of `encodeURIComponent`: unreserved ASCII characters pass
through, everything else is percent-encoded byte-wise (the apostrophe,
also unreserved in JS, cannot occur in a phone number and is elided). -/
def encodeURIComponent (s : String) : String :=
  String.join (s.data.map (fun c =>
    if c.isAlphanum || c ∈ ['-', '_', '.', '!', '~', '*', '(', ')'] then String.mk [c]
    else String.join ((utf8Bytes c.toNat).map (fun b =>
      String.mk ['%', hexDigit (b / 16), hexDigit (b % 16)]))))

/-- JavaScript `s.replace(pat, repl)` with a string pattern: replace the
first occurrence only. -/
def replaceFirst (s pat repl : String) : String :=
  match s.splitOn pat with
  | [] => s
  | [_] => s
  | x :: rest => x ++ repl ++ String.intercalate pat rest

/-- Source function `sendLoveReply`: build the tier-selection link from
the base URL and the encoded phone, substitute it into the LOVE
template, and send in-conversation. -/
def sendLoveReply (phoneNumber : String) (conversationId : Option String)
    (t : Templates) (e : Env) (f : Faults) : SendOut :=
  let welcomeLink := e.baseUrl ++ "/?phone=" ++ encodeURIComponent phoneNumber
  let replyMessage := replaceFirst t.loveReply "{link}" welcomeLink
  sendSMSInConversation phoneNumber replyMessage conversationId f

/-- Source function `sendUnsubReply`: the fixed UNSUB confirmation, sent
in-conversation. -/
def sendUnsubReply (phoneNumber : String) (conversationId : Option String)
    (t : Templates) (f : Faults) : SendOut :=
  sendSMSInConversation phoneNumber t.unsubReply conversationId f

/-- Source function `sendStopReply`: the fixed STOP confirmation, sent
in-conversation. -/
def sendStopReply (phoneNumber : String) (conversationId : Option String)
    (t : Templates) (f : Faults) : SendOut :=
  sendSMSInConversation phoneNumber t.stopReply conversationId f

/-! ## The keyword workflows -/

/-- Result of a keyword workflow: the boolean it returned, the store it
left behind, and the calls it attempted. -/
structure WorkflowOut where
  ok : Bool
  store : RecordStore
  trace : List Effect
deriving DecidableEq

/-- The payment-record patch written by the Unsubscribe workflow. -/
def unsubPatch : PaymentPatch :=
  { tier := some "free", amount := some 0, status := some "completed",
    stripeCustomerId := some "", stripeSubscriptionId := some "",
    stripePaymentIntentId := some "", stripeSessionId := some "" }

/-- The payment-record patch written by the Stop workflow (status
"cancelled", not "completed"). -/
def stopPatch : PaymentPatch :=
  { tier := some "free", amount := some 0, status := some "cancelled",
    stripeCustomerId := some "", stripeSubscriptionId := some "",
    stripePaymentIntentId := some "", stripeSessionId := some "" }

/-- Source function `processUnsubscription`: look up the Payment Record;
no-op (false) if none, tier falsy or "free", or status not "active";
otherwise cancel the Stripe subscription if one is stored (a Stripe
failure is swallowed), then patch the record to the free tier with
status "completed".  A throwing Record Store call lands in the catch
block, which returns false. -/
def processUnsubscription (phoneNumber : String) (s : RecordStore) (f : Faults) :
    WorkflowOut :=
  if f.findPaymentThrows then ⟨false, s, [.findPayment phoneNumber]⟩ else
  match findPaymentByPhone s phoneNumber with
  | none => ⟨false, s, [.findPayment phoneNumber]⟩
  | some r =>
    if !strTruthy r.tier || r.tier == some "free" || !(r.status == some "active") then
      ⟨false, s, [.findPayment phoneNumber]⟩
    else
      let cancelTrace :=
        if strTruthy r.stripeSubscriptionId then
          [Effect.stripeCancel (r.stripeSubscriptionId.getD "")]
        else []
      if f.paymentUpdateThrows then
        ⟨false, s, .findPayment phoneNumber :: cancelTrace ++ [.paymentWrite r.rid]⟩
      else
        ⟨true, updatePaymentRecord s r.rid unsubPatch,
         .findPayment phoneNumber :: cancelTrace ++ [.paymentWrite r.rid]⟩

/-- Source function `processStopRequest`: the STOP text is already
persisted by the main flow, so a missing Payment Record returns true;
otherwise cancel the Stripe subscription if one is stored and the status
is "active" (a Stripe failure is swallowed), then patch the record to
the free tier with status "cancelled".  A throwing Record Store call
lands in the catch block, which returns false. -/
def processStopRequest (phoneNumber : String) (s : RecordStore) (f : Faults) :
    WorkflowOut :=
  if f.findPaymentThrows then ⟨false, s, [.findPayment phoneNumber]⟩ else
  match findPaymentByPhone s phoneNumber with
  | none => ⟨true, s, [.findPayment phoneNumber]⟩
  | some r =>
    let cancelTrace :=
      if strTruthy r.stripeSubscriptionId && r.status == some "active" then
        [Effect.stripeCancel (r.stripeSubscriptionId.getD "")]
      else []
    if f.paymentUpdateThrows then
      ⟨false, s, .findPayment phoneNumber :: cancelTrace ++ [.paymentWrite r.rid]⟩
    else
      ⟨true, updatePaymentRecord s r.rid stopPatch,
       .findPayment phoneNumber :: cancelTrace ++ [.paymentWrite r.rid]⟩

/-! ## The webhook handler (POST) -/

/-- Keyword dispatch outcome: the three response flags, the store after
any workflow ran, and the attempted calls. -/
structure KwOut where
  replySent : Bool
  unsubProcessed : Bool
  stopProcessed : Bool
  store : RecordStore
  trace : List Effect
deriving DecidableEq

/-- Step 14 of the handler: case-insensitive keyword dispatch on the
trimmed body.  The source uses three separate `if`s whose conditions are
mutually exclusive; only `replySent` is set by LOVE (the UNSUB and STOP
reply results are awaited but discarded). -/
def runKeywords (normalizedPhone messageText : String) (conversationId : Option String)
    (t : Templates) (e : Env) (s : RecordStore) (f : Faults) : KwOut :=
  let messageUpper := jsToUpper (jsTrim messageText)
  if messageUpper == "LOVE" then
    let r := sendLoveReply normalizedPhone conversationId t e f
    ⟨r.ok, false, false, s, r.trace⟩
  else if messageUpper == "UNSUB" || messageUpper == "UNSUBSCRIBE" then
    let u := processUnsubscription normalizedPhone s f
    let r := sendUnsubReply normalizedPhone conversationId t f
    ⟨false, u.ok, false, u.store, u.trace ++ r.trace⟩
  else if messageUpper == "STOP" then
    let w := processStopRequest normalizedPhone s f
    let r := sendStopReply normalizedPhone conversationId t f
    ⟨false, false, w.ok, w.store, w.trace ++ r.trace⟩
  else ⟨false, false, false, s, []⟩

/-- The processed-message-id cache bound (`MAX_CACHE_SIZE`). -/
def MAX_CACHE_SIZE : Nat := 10000

/-- Step 15: add the id to the insertion-ordered cache; when the bound
is exceeded, delete the oldest id (skipped if that id is falsy, per the
source's `if (firstId)` guard). -/
def addProcessed (c : List String) (m : String) : List String :=
  let c1 := if m ∈ c then c else c.concat m
  if MAX_CACHE_SIZE < c1.length then
    match c1 with
    | [] => c1
    | first :: rest => if first = "" then first :: rest else rest
  else c1

/-- The webhook responses, by return site.  Echoed challenge values, the
pre-normalization phone echoed by the empty-text response, error
messages and timing fields are elided; `status` below recovers the HTTP
status code. -/
inductive Resp where
  | invalidJson
  | challengeEcho
  | duplicate (messageId : String)
  | noPhone (messageId : Option String)
  | emptyText (messageId : Option String)
  | success (messageId : Option String) (phone message action : String)
      (replySent unsubProcessed stopProcessed : Bool)
  | caughtError (messageId : Option String)
deriving DecidableEq

/-- HTTP status of a response: 400 only for an unparseable body. -/
def Resp.status : Resp → Nat
  | .invalidJson => 400
  | _ => 200

/-- Whether a response is the step-16 success acknowledgment (the only
return site reached after the idempotency mark). -/
def Resp.isSuccess : Resp → Bool
  | .success _ _ _ _ _ _ _ => true
  | _ => false

/-- Everything one call of the handler produces: the response, the store
and cache it leaves behind, and the collaborator calls it attempted. -/
structure PostOut where
  resp : Resp
  store : RecordStore
  cache : List String
  trace : List Effect
deriving DecidableEq

/-- Step 12 onward: look up and create/update the Phone Record (a throw
in either call lands in the outer catch, which acknowledges with the
error response and never reaches the idempotency mark), then dispatch
keywords and mark the id processed. -/
def persistAndDispatch (normalizedPhone messageText : String)
    (conversationId : Option String) (messageId : Option String)
    (t : Templates) (e : Env) (s : RecordStore) (c : List String) (f : Faults) : PostOut :=
  if f.findByPhoneThrows then
    ⟨.caughtError messageId, s, c, [.findPhone normalizedPhone]⟩
  else
    let existing := findByPhone s normalizedPhone
    if f.phoneWriteThrows then
      ⟨.caughtError messageId, s, c,
       [.findPhone normalizedPhone, .phoneWrite normalizedPhone messageText]⟩
    else
      let s1 :=
        match existing with
        | some r => updatePhoneRecord s r.rid normalizedPhone messageText
        | none => createPhoneRecord s normalizedPhone messageText
      let action := match existing with | some _ => "updated" | none => "created"
      let k := runKeywords normalizedPhone messageText conversationId t e s1 f
      let c2 := match messageId with | some m => addProcessed c m | none => c
      ⟨.success messageId normalizedPhone messageText action
          k.replySent k.unsubProcessed k.stopProcessed,
       k.store, c2,
       .findPhone normalizedPhone :: .phoneWrite normalizedPhone messageText :: k.trace⟩

/-- Step 4: unwrap the payload from the known nested shapes. -/
def selectPayload (body : JValue) : JValue :=
  if oTruthy (jGet body "payload") && jStrEq (jGet body "service") "channels" then
    (jGet body "payload").getD body
  else if oTruthy (jGet body "data") then (jGet body "data").getD body
  else if oTruthy ((jGet body "event").bind (fun ev => jGet ev "data")) then
    ((jGet body "event").bind (fun ev => jGet ev "data")).getD body
  else if oTruthy (jGet body "event") then (jGet body "event").getD body
  else if oTruthy (jGet body "message") then (jGet body "message").getD body
  else body

/-- Step 2's verification check: `body.type === 'webhook_verification'
|| body.challenge`. -/
def isChallengeReq (body : JValue) : Bool :=
  jStrEq (jGet body "type") "webhook_verification" || oTruthy (jGet body "challenge")

/-- Step 3: the message id, extracted from the Channels-API payload when
present (`body.payload && (body.service === 'channels' || body.event ===
'sms.inbound')`), else from the body, with a body-level fallback. -/
def midOf (body : JValue) : Option String :=
  let payloadForId :=
    if oTruthy (jGet body "payload") &&
        (jStrEq (jGet body "service") "channels" || jStrEq (jGet body "event") "sms.inbound") then
      (jGet body "payload").getD body
    else body
  (extractMessageId payloadForId).or (extractMessageId body)

/-- Steps 5–13 for a parsed, non-challenge, non-duplicate body: extract
fields, validate, normalize and hand over to the persistence step.  A
truthy non-string sender value reaches `phoneNumber.replace`, which
throws on non-strings and lands in the outer catch. -/
def mainFlow (body : JValue) (messageId : Option String)
    (t : Templates) (e : Env) (s : RecordStore) (c : List String) (f : Faults) : PostOut :=
  let payload := selectPayload body
  let phoneV := extractSenderNumber payload
  let messageText := extractMessageText payload
  let conversationId := extractConversationId body payload
  if !jTruthy phoneV || jStrEq (some phoneV) "Unknown" then
    ⟨.noPhone messageId, s, c, []⟩
  else if messageText == "" || jsTrim messageText == "" then
    ⟨.emptyText messageId, s, c, []⟩
  else
    match phoneV with
    | .jstr ph =>
      persistAndDispatch (stripWs ph) messageText conversationId messageId t e s c f
    | _ => ⟨.caughtError messageId, s, c, []⟩

/-- The body of the handler after a successful parse. -/
def postBody (body : JValue) (t : Templates) (e : Env) (s : RecordStore)
    (c : List String) (f : Faults) : PostOut :=
  if isChallengeReq body then ⟨.challengeEcho, s, c, []⟩
  else
    match midOf body with
    | some m =>
      if m ∈ c then ⟨.duplicate m, s, c, []⟩
      else mainFlow body (some m) t e s c f
    | none => mainFlow body none t e s c f

/-- Source function `POST` (the webhook handler, `handle_inbound` in the
spec): a body that fails to parse is answered 400; everything else is
handled by `postBody`, with every internal throw absorbed into a 200
acknowledgment.  The input is the result of `JSON.parse` on the raw
body (`none` when parsing threw). -/
def POST (parsed : Option JValue) (t : Templates) (e : Env) (s : RecordStore)
    (c : List String) (f : Faults) : PostOut :=
  match parsed with
  | none => ⟨.invalidJson, s, c, []⟩
  | some body => postBody body t e s c f

/-! ## Basic lemmas about the store operations and the cache -/

theorem updatePaymentRecord_phones (s : RecordStore) (rid : Nat) (p : PaymentPatch) :
    (updatePaymentRecord s rid p).phones = s.phones := rfl

theorem updatePhoneRecord_payments (s : RecordStore) (rid : Nat) (ph m : String) :
    (updatePhoneRecord s rid ph m).payments = s.payments := rfl

theorem createPhoneRecord_payments (s : RecordStore) (ph m : String) :
    (createPhoneRecord s ph m).payments = s.payments := rfl

theorem findPaymentByPhone_ext (s s' : RecordStore) (p : String)
    (h : s.payments = s'.payments) : findPaymentByPhone s p = findPaymentByPhone s' p := by
  unfold findPaymentByPhone
  rw [h]

theorem processStopRequest_phones (np : String) (s : RecordStore) (f : Faults) :
    (processStopRequest np s f).store.phones = s.phones := by
  unfold processStopRequest
  dsimp only
  split
  · rfl
  · split
    · rfl
    · split
      · rfl
      · rfl

theorem processUnsubscription_phones (np : String) (s : RecordStore) (f : Faults) :
    (processUnsubscription np s f).store.phones = s.phones := by
  unfold processUnsubscription
  dsimp only
  split
  · rfl
  · split
    · rfl
    · split
      · rfl
      · split
        · rfl
        · rfl

theorem runKeywords_phones (np τ : String) (cid : Option String) (t : Templates)
    (e : Env) (s : RecordStore) (f : Faults) :
    (runKeywords np τ cid t e s f).store.phones = s.phones := by
  unfold runKeywords
  dsimp only
  split
  · rfl
  · split
    · exact processUnsubscription_phones np s f
    · split
      · exact processStopRequest_phones np s f
      · rfl

theorem mem_addProcessed (c : List String) (m : String) (h : m ∉ c) :
    m ∈ addProcessed c m := by
  unfold addProcessed
  simp only [if_neg h]
  by_cases hlen : MAX_CACHE_SIZE < (c.concat m).length
  · simp only [if_pos hlen]
    cases c with
    | nil => simp [MAX_CACHE_SIZE] at hlen
    | cons a c' =>
      simp only [List.concat_eq_append, List.cons_append]
      by_cases ha : a = ""
      · simp [ha]
      · simp [ha]
  · simp only [if_neg hlen]
    simp [List.concat_eq_append]

/-! ## Lookup-after-write lemmas -/

theorem applyPaymentPatch_phone (r : PaymentRec) (p : PaymentPatch) :
    (applyPaymentPatch r p).phone = r.phone := rfl

theorem find_phone_update (l : List PhoneRec) (np τ : String) (r : PhoneRec)
    (h : l.find? (fun x => x.phone == np) = some r) :
    (l.map (fun x => if x.rid == r.rid then { x with phone := np, message := τ } else x)).find?
      (fun x => x.phone == np) = some ⟨r.rid, np, τ⟩ := by
  induction l with
  | nil => simp at h
  | cons a l' ih =>
    simp only [List.find?_cons] at h
    by_cases ha : a.phone = np
    · simp only [ha, beq_self_eq_true] at h
      injection h with h
      subst h
      simp [List.find?_cons, ha]
    · have hb : (a.phone == np) = false := by simp [ha]
      simp only [hb] at h
      by_cases hrid : a.rid = r.rid
      · simp only [List.map_cons, hrid, beq_self_eq_true, if_true]
        simp [List.find?_cons]
      · have hb2 : (a.rid == r.rid) = false := by simp [hrid]
        simp only [List.map_cons, hb2, Bool.false_eq_true, if_false]
        simp only [List.find?_cons, hb]
        exact ih h

theorem find_payment_update (l : List PaymentRec) (np : String) (p : PaymentPatch)
    (r : PaymentRec) (h : l.find? (fun x => x.phone == np) = some r) :
    (l.map (fun x => if x.rid == r.rid then applyPaymentPatch x p else x)).find?
      (fun x => x.phone == np) = some (applyPaymentPatch r p) := by
  induction l with
  | nil => simp at h
  | cons a l' ih =>
    simp only [List.find?_cons] at h
    by_cases ha : a.phone = np
    · simp only [ha, beq_self_eq_true] at h
      injection h with h
      subst h
      simp [List.find?_cons, applyPaymentPatch_phone, ha]
    · have hb : (a.phone == np) = false := by simp [ha]
      simp only [hb] at h
      by_cases hrid : a.rid = r.rid
      · simp only [List.map_cons, hrid, beq_self_eq_true, if_true]
        simp only [List.find?_cons, applyPaymentPatch_phone, hb]
        exact ih h
      · have hb2 : (a.rid == r.rid) = false := by simp [hrid]
        simp only [List.map_cons, hb2, Bool.false_eq_true, if_false]
        simp only [List.find?_cons, hb]
        exact ih h

theorem findByPhone_after_update (s : RecordStore) (np τ : String) (r : PhoneRec)
    (h : findByPhone s np = some r) :
    findByPhone (updatePhoneRecord s r.rid np τ) np = some ⟨r.rid, np, τ⟩ := by
  unfold findByPhone at h ⊢
  by_cases hnp : np = ""
  · simp [hnp] at h
  · simp only [if_neg hnp] at h ⊢
    exact find_phone_update s.phones np τ r h

theorem findByPhone_after_create (s : RecordStore) (np τ : String)
    (h : findByPhone s np = none) (hnp : np ≠ "") :
    findByPhone (createPhoneRecord s np τ) np = some ⟨s.nextRid, np, τ⟩ := by
  unfold findByPhone at h ⊢
  simp only [if_neg hnp] at h ⊢
  unfold createPhoneRecord
  dsimp only
  rw [List.concat_eq_append, List.find?_append, h]
  simp [List.find?_cons]

theorem findPaymentByPhone_after_update (s : RecordStore) (np : String)
    (p : PaymentPatch) (r : PaymentRec) (h : findPaymentByPhone s np = some r) :
    findPaymentByPhone (updatePaymentRecord s r.rid p) np = some (applyPaymentPatch r p) := by
  unfold findPaymentByPhone at h ⊢
  exact find_payment_update s.payments np p r h

/-! ## Trace classifiers and reply-chain lemmas -/

/-- Whether an effect is a Payments Gateway cancellation call. -/
def isCancel : Effect → Bool
  | .stripeCancel _ => true
  | _ => false

/-- Whether an effect is a write to the Payments table. -/
def isPaymentWrite : Effect → Bool
  | .paymentWrite _ => true
  | _ => false

/-- The delivery route of an outbound attempt, `none` for other effects. -/
def sendAttemptPath : Effect → Option SendPath
  | .sendAttempt path _ _ => some path
  | _ => none

/-- Whether an outbound attempt succeeds under the given fault oracle. -/
def attemptSucceeds (f : Faults) : Effect → Bool
  | .sendAttempt (.conv _) _ _ => f.convSend == .ok
  | .sendAttempt .findOrCreate _ _ => !f.sendSMSThrows
  | .sendAttempt .direct _ _ => !f.sendDirectThrows
  | _ => false

theorem sendSMSInConversation_no_cancel (φ m : String) (cid : Option String) (f : Faults) :
    (sendSMSInConversation φ m cid f).trace.countP isCancel = 0 := by
  unfold sendSMSInConversation
  rcases cid with _ | c
  · dsimp only
    split
    · simp [isCancel]
    · simp [isCancel]
  · dsimp only
    rcases hcs : f.convSend <;> simp only [hcs]
    · simp [isCancel]
    · split
      · simp [isCancel]
      · simp [isCancel]
    · simp [isCancel]

theorem sendSMSInConversation_no_payment_write (φ m : String) (cid : Option String)
    (f : Faults) :
    (sendSMSInConversation φ m cid f).trace.countP isPaymentWrite = 0 := by
  unfold sendSMSInConversation
  rcases cid with _ | c
  · dsimp only
    split
    · simp [isPaymentWrite]
    · simp [isPaymentWrite]
  · dsimp only
    rcases hcs : f.convSend <;> simp only [hcs]
    · simp [isPaymentWrite]
    · split
      · simp [isPaymentWrite]
      · simp [isPaymentWrite]
    · simp [isPaymentWrite]

theorem sendSMSInConversation_attempts (φ m : String) (cid : Option String) (f : Faults) :
    ∃ path ph, Effect.sendAttempt path ph m ∈ (sendSMSInConversation φ m cid f).trace := by
  unfold sendSMSInConversation
  rcases cid with _ | c
  · dsimp only
    split
    · exact ⟨_, _, List.mem_cons_self _ _⟩
    · exact ⟨_, _, List.mem_cons_self _ _⟩
  · dsimp only
    rcases hcs : f.convSend <;> simp only [hcs]
    · exact ⟨_, _, List.mem_cons_self _ _⟩
    · split
      · exact ⟨_, _, List.mem_cons_self _ _⟩
      · exact ⟨_, _, List.mem_cons_self _ _⟩
    · exact ⟨_, _, List.mem_cons_self _ _⟩

/-! ## Unfolding equations for the workflows and the dispatcher -/

theorem processStopRequest_ok (np : String) (s : RecordStore) (f : Faults)
    (h1 : f.findPaymentThrows = false) (h2 : f.paymentUpdateThrows = false) :
    (processStopRequest np s f).ok = true := by
  unfold processStopRequest
  simp only [h1, Bool.false_eq_true, if_false]
  rcases hfind : findPaymentByPhone s np with _ | r
  · rfl
  · dsimp only
    simp only [h2, Bool.false_eq_true, if_false]

theorem processStopRequest_some (np : String) (s : RecordStore) (f : Faults)
    (r : PaymentRec) (h1 : f.findPaymentThrows = false)
    (h2 : f.paymentUpdateThrows = false) (hr : findPaymentByPhone s np = some r) :
    processStopRequest np s f =
      ⟨true, updatePaymentRecord s r.rid stopPatch,
       .findPayment np ::
         (if strTruthy r.stripeSubscriptionId && r.status == some "active" then
            [Effect.stripeCancel (r.stripeSubscriptionId.getD "")]
          else []) ++ [.paymentWrite r.rid]⟩ := by
  unfold processStopRequest
  simp only [h1, Bool.false_eq_true, if_false, hr]
  simp only [h2, Bool.false_eq_true, if_false]

theorem processStopRequest_updateThrow (np : String) (s : RecordStore) (f : Faults)
    (r : PaymentRec) (h1 : f.findPaymentThrows = false)
    (h2 : f.paymentUpdateThrows = true) (hr : findPaymentByPhone s np = some r) :
    processStopRequest np s f =
      ⟨false, s,
       .findPayment np ::
         (if strTruthy r.stripeSubscriptionId && r.status == some "active" then
            [Effect.stripeCancel (r.stripeSubscriptionId.getD "")]
          else []) ++ [.paymentWrite r.rid]⟩ := by
  unfold processStopRequest
  simp only [h1, Bool.false_eq_true, if_false, hr]
  simp only [h2, if_true]

theorem processUnsubscription_none (np : String) (s : RecordStore) (f : Faults)
    (h1 : f.findPaymentThrows = false) (hr : findPaymentByPhone s np = none) :
    processUnsubscription np s f = ⟨false, s, [.findPayment np]⟩ := by
  unfold processUnsubscription
  simp only [h1, Bool.false_eq_true, if_false, hr]

theorem processUnsubscription_guard (np : String) (s : RecordStore) (f : Faults)
    (r : PaymentRec) (h1 : f.findPaymentThrows = false)
    (hr : findPaymentByPhone s np = some r)
    (hg : (!strTruthy r.tier || r.tier == some "free" || !(r.status == some "active")) = true) :
    processUnsubscription np s f = ⟨false, s, [.findPayment np]⟩ := by
  unfold processUnsubscription
  simp only [h1, Bool.false_eq_true, if_false, hr]
  simp only [hg, if_true]

theorem processUnsubscription_active (np : String) (s : RecordStore) (f : Faults)
    (r : PaymentRec) (h1 : f.findPaymentThrows = false)
    (h2 : f.paymentUpdateThrows = false) (hr : findPaymentByPhone s np = some r)
    (hg : (!strTruthy r.tier || r.tier == some "free" || !(r.status == some "active")) = false) :
    processUnsubscription np s f =
      ⟨true, updatePaymentRecord s r.rid unsubPatch,
       .findPayment np ::
         (if strTruthy r.stripeSubscriptionId then
            [Effect.stripeCancel (r.stripeSubscriptionId.getD "")]
          else []) ++ [.paymentWrite r.rid]⟩ := by
  unfold processUnsubscription
  simp only [h1, Bool.false_eq_true, if_false, hr]
  simp only [hg, Bool.false_eq_true, if_false, h2]

theorem runKeywords_stop (np τ : String) (cid : Option String) (t : Templates)
    (e : Env) (s : RecordStore) (f : Faults) (h : jsToUpper (jsTrim τ) = "STOP") :
    runKeywords np τ cid t e s f =
      ⟨false, false, (processStopRequest np s f).ok, (processStopRequest np s f).store,
       (processStopRequest np s f).trace ++ (sendStopReply np cid t f).trace⟩ := by
  unfold runKeywords
  dsimp only
  rw [h]
  rfl

theorem runKeywords_unsub (np τ : String) (cid : Option String) (t : Templates)
    (e : Env) (s : RecordStore) (f : Faults) (h : jsToUpper (jsTrim τ) = "UNSUB") :
    runKeywords np τ cid t e s f =
      ⟨false, (processUnsubscription np s f).ok, false, (processUnsubscription np s f).store,
       (processUnsubscription np s f).trace ++ (sendUnsubReply np cid t f).trace⟩ := by
  unfold runKeywords
  dsimp only
  rw [h]
  rfl

theorem runKeywords_other (np τ : String) (cid : Option String) (t : Templates)
    (e : Env) (s : RecordStore) (f : Faults)
    (hL : jsToUpper (jsTrim τ) ≠ "LOVE") (hU1 : jsToUpper (jsTrim τ) ≠ "UNSUB")
    (hU2 : jsToUpper (jsTrim τ) ≠ "UNSUBSCRIBE") (hS : jsToUpper (jsTrim τ) ≠ "STOP") :
    runKeywords np τ cid t e s f = ⟨false, false, false, s, []⟩ := by
  unfold runKeywords
  dsimp only
  have h1 : (jsToUpper (jsTrim τ) == "LOVE") = false := by simp [hL]
  have h2 : (jsToUpper (jsTrim τ) == "UNSUB") = false := by simp [hU1]
  have h3 : (jsToUpper (jsTrim τ) == "UNSUBSCRIBE") = false := by simp [hU2]
  have h4 : (jsToUpper (jsTrim τ) == "STOP") = false := by simp [hS]
  simp only [h1, h2, h3, h4, Bool.or_self, Bool.false_eq_true, if_false, Bool.or_false]

/-! ## Unfolding equations for the handler pipeline -/

theorem persistAndDispatch_findThrow (np τ : String) (cid mid : Option String)
    (t : Templates) (e : Env) (s : RecordStore) (c : List String) (f : Faults)
    (h : f.findByPhoneThrows = true) :
    persistAndDispatch np τ cid mid t e s c f =
      ⟨.caughtError mid, s, c, [.findPhone np]⟩ := by
  unfold persistAndDispatch
  simp only [h, if_true]

theorem persistAndDispatch_writeThrow (np τ : String) (cid mid : Option String)
    (t : Templates) (e : Env) (s : RecordStore) (c : List String) (f : Faults)
    (h1 : f.findByPhoneThrows = false) (h2 : f.phoneWriteThrows = true) :
    persistAndDispatch np τ cid mid t e s c f =
      ⟨.caughtError mid, s, c, [.findPhone np, .phoneWrite np τ]⟩ := by
  unfold persistAndDispatch
  simp only [h1, h2, Bool.false_eq_true, if_false, if_true]

theorem persistAndDispatch_update (np τ : String) (cid mid : Option String)
    (t : Templates) (e : Env) (s : RecordStore) (c : List String) (f : Faults)
    (r : PhoneRec) (h1 : f.findByPhoneThrows = false) (h2 : f.phoneWriteThrows = false)
    (hfind : findByPhone s np = some r) :
    persistAndDispatch np τ cid mid t e s c f =
      ⟨.success mid np τ "updated"
          (runKeywords np τ cid t e (updatePhoneRecord s r.rid np τ) f).replySent
          (runKeywords np τ cid t e (updatePhoneRecord s r.rid np τ) f).unsubProcessed
          (runKeywords np τ cid t e (updatePhoneRecord s r.rid np τ) f).stopProcessed,
       (runKeywords np τ cid t e (updatePhoneRecord s r.rid np τ) f).store,
       (match mid with | some m => addProcessed c m | none => c),
       .findPhone np :: .phoneWrite np τ ::
         (runKeywords np τ cid t e (updatePhoneRecord s r.rid np τ) f).trace⟩ := by
  unfold persistAndDispatch
  simp only [h1, h2, Bool.false_eq_true, if_false, hfind]

theorem persistAndDispatch_create (np τ : String) (cid mid : Option String)
    (t : Templates) (e : Env) (s : RecordStore) (c : List String) (f : Faults)
    (h1 : f.findByPhoneThrows = false) (h2 : f.phoneWriteThrows = false)
    (hfind : findByPhone s np = none) :
    persistAndDispatch np τ cid mid t e s c f =
      ⟨.success mid np τ "created"
          (runKeywords np τ cid t e (createPhoneRecord s np τ) f).replySent
          (runKeywords np τ cid t e (createPhoneRecord s np τ) f).unsubProcessed
          (runKeywords np τ cid t e (createPhoneRecord s np τ) f).stopProcessed,
       (runKeywords np τ cid t e (createPhoneRecord s np τ) f).store,
       (match mid with | some m => addProcessed c m | none => c),
       .findPhone np :: .phoneWrite np τ ::
         (runKeywords np τ cid t e (createPhoneRecord s np τ) f).trace⟩ := by
  unfold persistAndDispatch
  simp only [h1, h2, Bool.false_eq_true, if_false, hfind]

theorem mainFlow_valid (body : JValue) (mid : Option String) (t : Templates) (e : Env)
    (s : RecordStore) (c : List String) (f : Faults) (φ : String)
    (hph : extractSenderNumber (selectPayload body) = .jstr φ)
    (hφ1 : φ ≠ "") (hφ2 : φ ≠ "Unknown")
    (hτ1 : extractMessageText (selectPayload body) ≠ "")
    (hτ2 : jsTrim (extractMessageText (selectPayload body)) ≠ "") :
    mainFlow body mid t e s c f =
      persistAndDispatch (stripWs φ) (extractMessageText (selectPayload body))
        (extractConversationId body (selectPayload body)) mid t e s c f := by
  unfold mainFlow
  have hT : jTruthy (.jstr φ) = true := by simp [jTruthy, hφ1]
  have hU : jStrEq (some (.jstr φ)) "Unknown" = false := by simp [jStrEq, hφ2]
  have hE1 : (extractMessageText (selectPayload body) == "") = false := by simp [hτ1]
  have hE2 : (jsTrim (extractMessageText (selectPayload body)) == "") = false := by
    simp [hτ2]
  simp only [hph, hT, hU, hE1, hE2, Bool.not_true, Bool.or_self, Bool.false_eq_true,
    if_false, Bool.or_false]

theorem postBody_dup (body : JValue) (t : Templates) (e : Env) (s : RecordStore)
    (c : List String) (f : Faults) (m : String)
    (hch : isChallengeReq body = false) (hm : midOf body = some m) (hin : m ∈ c) :
    postBody body t e s c f = ⟨.duplicate m, s, c, []⟩ := by
  unfold postBody
  simp only [hch, Bool.false_eq_true, if_false, hm, hin, if_true]

theorem postBody_noDup (body : JValue) (t : Templates) (e : Env) (s : RecordStore)
    (c : List String) (f : Faults) (mid : Option String)
    (hch : isChallengeReq body = false) (hm : midOf body = mid)
    (hnd : ∀ m, mid = some m → m ∉ c) :
    postBody body t e s c f = mainFlow body mid t e s c f := by
  unfold postBody
  simp only [hch, Bool.false_eq_true, if_false, hm]
  rcases mid with _ | m
  · rfl
  · dsimp only
    rw [if_neg (hnd m rfl)]

/-! ## Status and cache lemmas (no path returns 400 after a parse, and
the cache is only written by the completed success path) -/

theorem persistAndDispatch_status (np τ : String) (cid mid : Option String)
    (t : Templates) (e : Env) (s : RecordStore) (c : List String) (f : Faults) :
    (persistAndDispatch np τ cid mid t e s c f).resp.status = 200 := by
  unfold persistAndDispatch
  dsimp only
  split
  · rfl
  · split
    · rfl
    · rfl

theorem mainFlow_status (body : JValue) (mid : Option String) (t : Templates) (e : Env)
    (s : RecordStore) (c : List String) (f : Faults) :
    (mainFlow body mid t e s c f).resp.status = 200 := by
  unfold mainFlow
  dsimp only
  split
  · rfl
  · split
    · rfl
    · split
      · exact persistAndDispatch_status _ _ _ _ _ _ _ _ _
      · rfl

theorem postBody_status (body : JValue) (t : Templates) (e : Env) (s : RecordStore)
    (c : List String) (f : Faults) :
    (postBody body t e s c f).resp.status = 200 := by
  unfold postBody
  split
  · rfl
  · split
    · split
      · rfl
      · exact mainFlow_status _ _ _ _ _ _ _
    · exact mainFlow_status _ _ _ _ _ _ _

theorem persistAndDispatch_cache_or (np τ : String) (cid mid : Option String)
    (t : Templates) (e : Env) (s : RecordStore) (c : List String) (f : Faults) :
    (persistAndDispatch np τ cid mid t e s c f).cache = c ∨
      (persistAndDispatch np τ cid mid t e s c f).resp.isSuccess = true := by
  unfold persistAndDispatch
  dsimp only
  split
  · exact Or.inl rfl
  · split
    · exact Or.inl rfl
    · exact Or.inr rfl

theorem mainFlow_cache_or (body : JValue) (mid : Option String) (t : Templates) (e : Env)
    (s : RecordStore) (c : List String) (f : Faults) :
    (mainFlow body mid t e s c f).cache = c ∨
      (mainFlow body mid t e s c f).resp.isSuccess = true := by
  unfold mainFlow
  dsimp only
  split
  · exact Or.inl rfl
  · split
    · exact Or.inl rfl
    · split
      · exact persistAndDispatch_cache_or _ _ _ _ _ _ _ _ _
      · exact Or.inl rfl

theorem postBody_cache_or (body : JValue) (t : Templates) (e : Env) (s : RecordStore)
    (c : List String) (f : Faults) :
    (postBody body t e s c f).cache = c ∨
      (postBody body t e s c f).resp.isSuccess = true := by
  unfold postBody
  split
  · exact Or.inl rfl
  · split
    · split
      · exact Or.inl rfl
      · exact mainFlow_cache_or _ _ _ _ _ _ _
    · exact mainFlow_cache_or _ _ _ _ _ _ _

/-! ## Concrete fixtures for counterexamples and witnesses -/

/-- Sample message templates. -/
def tEx : Templates :=
  ⟨"Thanks for joining The Weft! Click here: {link}",
   "You have been successfully unsubscribed.",
   "You will no longer receive messages."⟩

/-- Sample environment. -/
def eEx : Env := ⟨"http://localhost:3000"⟩

/-- An empty Record Store. -/
def s0 : RecordStore := ⟨[], [], 0⟩

/-- An active paid Payment Record holding subscription id "sub_1". -/
def payRec : PaymentRec :=
  { rid := 7, phone := "+15551230000", tier := some "10", amount := some 10,
    status := some "active", stripeCustomerId := some "cus_1",
    stripeSubscriptionId := some "sub_1", stripePaymentIntentId := some "pi_1",
    stripeSessionId := some "cs_1" }

/-- A store holding only `payRec`. -/
def sPay : RecordStore := ⟨[], [payRec], 0⟩

/-- Faults: the Payments-table update throws. -/
def fUpdThrow : Faults := { paymentUpdateThrows := true }

/-- Faults: the Phone Record write throws. -/
def fWriteThrow : Faults := { phoneWriteThrows := true }

/-- Faults: the direct-conversation send throws (network failure). -/
def fConvThrew : Faults := { convSend := .threw }

/-- A delivery carrying an event id but no sender phone. -/
def pC1 : JValue := .jobj [("id", .jstr "m1"), ("text", .jstr "hi")]

/-- A complete, processable delivery carrying an event id. -/
def pGood : JValue :=
  .jobj [("id", .jstr "m2"), ("from", .jstr "+1 555 123 0000"), ("text", .jstr "hello")]

/-- A lowercase STOP delivery (no event id, no recipient). -/
def pStop : JValue := .jobj [("from", .jstr "+15551230000"), ("text", .jstr "stop")]

/-- A lowercase UNSUB delivery. -/
def pUnsub : JValue := .jobj [("from", .jstr "+15551230000"), ("text", .jstr "unsub")]

/-- A non-keyword delivery with a sender and body but no recipient. -/
def pHello : JValue := .jobj [("from", .jstr "+15551230000"), ("text", .jstr "hello")]

/-! ## Claim theorems -/

/-- Claim C2: the handler returns a client-error status (400) if and only
if the request body failed to parse as JSON; every parseable body —
including any combination of throwing collaborator calls, captured by
the arbitrary fault oracle `f` — is answered with a 200 acknowledgment.
The handler is a total function, so no exception escapes to the caller. -/
theorem C2_client_error_iff_unparseable (parsed : Option JValue) (t : Templates)
    (e : Env) (s : RecordStore) (c : List String) (f : Faults) :
    (POST parsed t e s c f).resp.status = 400 ↔ parsed = none := by
  rcases parsed with _ | body
  · exact ⟨fun _ => rfl, fun _ => rfl⟩
  · constructor
    · intro h
      have h200 := postBody_status body t e s c f
      have : POST (some body) t e s c f = postBody body t e s c f := rfl
      rw [this, h200] at h
      exact absurd h (by decide)
    · intro h
      exact Option.noConfusion h

/-- Claim C3 counterexample: with a Payment Record present and a
Record Store update that throws, `processStopRequest` returns false —
refuting "always returns true ... regardless of whether the Payments
Gateway or Record Store calls inside the workflow succeed or fail". -/
theorem C3_counterexample :
    (processStopRequest "+15551230000" sPay fUpdThrow).ok = false := rfl

/-- Claim C3 (amended): `processStopRequest` returns true whenever its
Record Store calls succeed — in particular always when no Payment Record
exists, and regardless of whether the Payments Gateway cancellation
succeeds or fails (`f.stripeCancelThrows` is unconstrained); it returns
false only when the payment lookup or the payment update throws. -/
theorem C3_stop_true_when_store_succeeds (φ : String) (s : RecordStore) (f : Faults)
    (h1 : f.findPaymentThrows = false) (h2 : f.paymentUpdateThrows = false) :
    (processStopRequest φ s f).ok = true :=
  processStopRequest_ok φ s f h1 h2

/-- Claim C3 witness: the amended theorem evaluated on a concrete store
holding an active paid record, with a failing Stripe gateway. -/
theorem C3_witness :
    (processStopRequest "+15551230000" sPay { stripeCancelThrows := true }).ok = true :=
  C3_stop_true_when_store_succeeds "+15551230000" sPay { stripeCancelThrows := true } rfl rfl

/-- Claim C9 counterexample: with a conversation id present and a
conversation-id send that throws (rather than returning an unsuccessful
HTTP response), the handler falls back directly to the channel-direct
send and never attempts the find-or-create-conversation send — even
though that send would not have thrown (`fConvThrew.sendSMSThrows =
false`) — refuting the claimed (a)-then-(b)-then-(c) attempt order. -/
theorem C9_counterexample :
    (sendSMSInConversation "+15551230000" "reply" (some "c1") fConvThrew).trace.filterMap
        sendAttemptPath = [SendPath.conv "c1", SendPath.direct] ∧
      fConvThrew.sendSMSThrows = false ∧
      (sendSMSInConversation "+15551230000" "reply" (some "c1") fConvThrew).ok = true := by
  exact ⟨rfl, rfl, rfl⟩

/-- The reply-delivery contract as amended: the conversation-id send is
attempted exactly when a conversation id is present; the find-or-create
send is attempted when no id is present or when the conversation-id send
returned an unsuccessful HTTP response (not when it threw); the
channel-direct send is attempted when the conversation-id send threw or
the find-or-create send threw. -/
def replyAttemptOrderSpec (cid : Option String) (f : Faults) : List SendPath :=
  match cid, f.convSend, f.sendSMSThrows with
  | none, _, false => [.findOrCreate]
  | none, _, true => [.findOrCreate, .direct]
  | some c, .ok, _ => [.conv c]
  | some c, .httpError, false => [.conv c, .findOrCreate]
  | some c, .httpError, true => [.conv c, .findOrCreate, .direct]
  | some c, .threw, _ => [.conv c, .direct]

/-- Claim C9 (amended): `sendSMSInConversation` makes exactly the
attempts of `replyAttemptOrderSpec`, in that order — in particular a
*thrown* conversation-id send skips the find-or-create fallback and goes
straight to the channel-direct send — and it returns true exactly when
one of the attempts it made succeeded (so false when all attempts fail).
It is a total function: no exception reaches its caller. -/
theorem C9_reply_fallback_chain (φ m : String) (cid : Option String) (f : Faults) :
    (sendSMSInConversation φ m cid f).trace.filterMap sendAttemptPath =
        replyAttemptOrderSpec cid f ∧
      (sendSMSInConversation φ m cid f).ok =
        (sendSMSInConversation φ m cid f).trace.any (attemptSucceeds f) := by
  unfold sendSMSInConversation replyAttemptOrderSpec
  rcases cid with _ | c
  · dsimp only
    rcases hss : f.sendSMSThrows <;> simp only [hss]
    · simp [sendAttemptPath, attemptSucceeds, hss]
    · simp [sendAttemptPath, attemptSucceeds, hss]
  · dsimp only
    rcases hcs : f.convSend <;> simp only [hcs]
    · simp [sendAttemptPath, attemptSucceeds, hcs]
    · rcases hss : f.sendSMSThrows <;> simp only [hss]
      · simp [sendAttemptPath, attemptSucceeds, hcs, hss]
      · simp [sendAttemptPath, attemptSucceeds, hcs, hss]
    · simp [sendAttemptPath, attemptSucceeds, hcs]

theorem mainFlow_benign (body : JValue) (mid : Option String) (t : Templates) (e : Env)
    (s : RecordStore) (c : List String) (f : Faults)
    (h : (!jTruthy (extractSenderNumber (selectPayload body)) ||
          jStrEq (some (extractSenderNumber (selectPayload body))) "Unknown") = true ∨
         (extractMessageText (selectPayload body) == "" ||
          jsTrim (extractMessageText (selectPayload body)) == "") = true) :
    (mainFlow body mid t e s c f).trace = [] ∧ (mainFlow body mid t e s c f).store = s := by
  unfold mainFlow
  dsimp only
  rcases h with h | h
  · simp [h]
  · split
    · exact ⟨rfl, rfl⟩
    · simp [h]

/-- Claim C8 counterexample: a parseable payload with a sender phone and
a message body but *no extractable recipient* (the recipient chain
yields the empty string) is fully processed — the handler performs a
Phone Record lookup and a Phone Record write — refuting "no recipient
extracted implies zero Record Store writes": the recipient is extracted
for logging only and never validated. -/
theorem C8_counterexample :
    extractRecipientNumber (selectPayload pHello) = .jstr "" ∧
      (POST (some pHello) tEx eEx s0 [] noFaults).trace =
        [.findPhone "+15551230000", .phoneWrite "+15551230000" "hello"] ∧
      (POST (some pHello) tEx eEx s0 [] noFaults).resp.status = 200 := by
  exact ⟨rfl, rfl, rfl⟩

/-- Claim C8 (amended): for every parseable payload from which no usable
sender phone was extracted (the extracted value is falsy or the literal
"Unknown"), or whose extracted message body is empty or whitespace-only,
the handler returns a 200 acknowledgment and performs zero collaborator
calls — no Record Store access, no write, and no outbound send.  The
missing-recipient case is dropped: the recipient is never validated. -/
theorem C8_no_phone_no_side_effects (body : JValue) (t : Templates) (e : Env)
    (s : RecordStore) (c : List String) (f : Faults)
    (h : (!jTruthy (extractSenderNumber (selectPayload body)) ||
          jStrEq (some (extractSenderNumber (selectPayload body))) "Unknown") = true ∨
         (extractMessageText (selectPayload body) == "" ||
          jsTrim (extractMessageText (selectPayload body)) == "") = true) :
    (POST (some body) t e s c f).resp.status = 200 ∧
      (POST (some body) t e s c f).trace = [] ∧
      (POST (some body) t e s c f).store = s := by
  refine ⟨postBody_status body t e s c f, ?_⟩
  show (postBody body t e s c f).trace = [] ∧ (postBody body t e s c f).store = s
  unfold postBody
  split
  · exact ⟨rfl, rfl⟩
  · split
    · split
      · exact ⟨rfl, rfl⟩
      · exact mainFlow_benign body _ t e s c f h
    · exact mainFlow_benign body _ t e s c f h

/-- Claim C8 witness: the amended theorem evaluated on the empty JSON
object, from which the sender chain yields the literal "Unknown". -/
theorem C8_witness :
    (POST (some (.jobj [])) tEx eEx s0 [] noFaults).resp.status = 200 ∧
      (POST (some (.jobj [])) tEx eEx s0 [] noFaults).trace = [] ∧
      (POST (some (.jobj [])) tEx eEx s0 [] noFaults).store = s0 :=
  C8_no_phone_no_side_effects (.jobj []) tEx eEx s0 [] noFaults (Or.inl rfl)

theorem findByPhone_ext (s s' : RecordStore) (p : String)
    (h : s.phones = s'.phones) : findByPhone s p = findByPhone s' p := by
  unfold findByPhone
  rw [h]

/-- Claim C4 counterexample: a lowercase "stop" body triggers the STOP
workflow (the response records `stopProcessed = true`), but the Phone
Record lookup afterwards returns the raw inbound text "stop", not the
string "STOP" — the handler persists `messageText` as received, before
any case normalization. -/
theorem C4_counterexample :
    (POST (some pStop) tEx eEx s0 [] noFaults).resp =
        .success none "+15551230000" "stop" "created" false false true ∧
      ((findByPhone (POST (some pStop) tEx eEx s0 [] noFaults).store "+15551230000").map
        (fun r => r.message)) = some "stop" ∧
      ("stop" : String) ≠ "STOP" := by
  exact ⟨rfl, rfl, by decide⟩

/-- Claim C4 (amended): for every inbound message that triggers the STOP
workflow (trimmed body uppercases to "STOP"), with a usable sender phone
(truthy, not "Unknown", non-empty after whitespace normalization) and a
successful phone-record persistence, after the handler completes a Phone
Record lookup for the normalized phone returns a record whose message
field equals the *raw inbound body text* (whose trimmed uppercase form
is "STOP") — equal to the literal "STOP" only when the body was sent
exactly as "STOP".  This holds regardless of the prior payment state
(the store `s` and the payment-side faults in `f` are unconstrained). -/
theorem C4_stop_persists_message (body : JValue) (t : Templates) (e : Env)
    (s : RecordStore) (c : List String) (f : Faults) (φ : String) (mid : Option String)
    (hch : isChallengeReq body = false)
    (hm : midOf body = mid) (hnd : ∀ m, mid = some m → m ∉ c)
    (hph : extractSenderNumber (selectPayload body) = .jstr φ)
    (hφ1 : φ ≠ "") (hφ2 : φ ≠ "Unknown") (hnp : stripWs φ ≠ "")
    (hkw : jsToUpper (jsTrim (extractMessageText (selectPayload body))) = "STOP")
    (hf1 : f.findByPhoneThrows = false) (hf2 : f.phoneWriteThrows = false) :
    (POST (some body) t e s c f).resp.isSuccess = true ∧
      ((findByPhone (POST (some body) t e s c f).store (stripWs φ)).map
        (fun r => r.message)) = some (extractMessageText (selectPayload body)) := by
  have hτ2 : jsTrim (extractMessageText (selectPayload body)) ≠ "" := by
    intro hemp
    rw [hemp] at hkw
    exact absurd hkw (by decide)
  have hτ1 : extractMessageText (selectPayload body) ≠ "" := by
    intro hemp
    apply hτ2
    rw [hemp]
    rfl
  have hpost : POST (some body) t e s c f = postBody body t e s c f := rfl
  rw [hpost, postBody_noDup body t e s c f mid hch hm hnd,
      mainFlow_valid body mid t e s c f φ hph hφ1 hφ2 hτ1 hτ2]
  rcases hfind : findByPhone s (stripWs φ) with _ | r
  · rw [persistAndDispatch_create (stripWs φ) (extractMessageText (selectPayload body))
        (extractConversationId body (selectPayload body)) mid t e s c f hf1 hf2 hfind]
    refine ⟨rfl, ?_⟩
    rw [findByPhone_ext _ _ _ (runKeywords_phones (stripWs φ)
          (extractMessageText (selectPayload body))
          (extractConversationId body (selectPayload body)) t e
          (createPhoneRecord s (stripWs φ) (extractMessageText (selectPayload body))) f),
        findByPhone_after_create s (stripWs φ) (extractMessageText (selectPayload body))
          hfind hnp]
    rfl
  · rw [persistAndDispatch_update (stripWs φ) (extractMessageText (selectPayload body))
        (extractConversationId body (selectPayload body)) mid t e s c f r hf1 hf2 hfind]
    refine ⟨rfl, ?_⟩
    rw [findByPhone_ext _ _ _ (runKeywords_phones (stripWs φ)
          (extractMessageText (selectPayload body))
          (extractConversationId body (selectPayload body)) t e
          (updatePhoneRecord s r.rid (stripWs φ) (extractMessageText (selectPayload body))) f),
        findByPhone_after_update s (stripWs φ) (extractMessageText (selectPayload body))
          r hfind]
    rfl

/-- Claim C4 witness: the amended theorem evaluated on the lowercase
"stop" delivery against an empty store. -/
theorem C4_witness :
    (POST (some pStop) tEx eEx s0 [] noFaults).resp.isSuccess = true ∧
      ((findByPhone (POST (some pStop) tEx eEx s0 [] noFaults).store "+15551230000").map
        (fun r => r.message)) = some "stop" :=
  C4_stop_persists_message pStop tEx eEx s0 [] noFaults "+15551230000" none rfl rfl
    (fun m h => Option.noConfusion h) rfl (by decide) (by decide) (by decide) rfl rfl rfl

/-- Claim C6: for a STOP message from a phone with an active paid
Payment Record, after the handler completes, the Payment Record has tier
"free", amount 0, all four external identifier fields cleared to the
empty string, and status "cancelled" — not "completed" — so the record
is distinguishable from one produced by the Unsubscribe workflow. -/
theorem C6_stop_cancels_payment (body : JValue) (t : Templates) (e : Env)
    (s : RecordStore) (c : List String) (f : Faults) (φ tier : String)
    (mid : Option String) (r : PaymentRec)
    (hch : isChallengeReq body = false)
    (hm : midOf body = mid) (hnd : ∀ m, mid = some m → m ∉ c)
    (hph : extractSenderNumber (selectPayload body) = .jstr φ)
    (hφ1 : φ ≠ "") (hφ2 : φ ≠ "Unknown")
    (hkw : jsToUpper (jsTrim (extractMessageText (selectPayload body))) = "STOP")
    (hr : findPaymentByPhone s (stripWs φ) = some r)
    (htier : r.tier = some tier) (ht1 : tier ≠ "") (ht2 : tier ≠ "free")
    (hact : r.status = some "active")
    (hf1 : f.findByPhoneThrows = false) (hf2 : f.phoneWriteThrows = false)
    (hf3 : f.findPaymentThrows = false) (hf4 : f.paymentUpdateThrows = false) :
    findPaymentByPhone (POST (some body) t e s c f).store (stripWs φ) =
        some (applyPaymentPatch r stopPatch) ∧
      (applyPaymentPatch r stopPatch).tier = some "free" ∧
      (applyPaymentPatch r stopPatch).amount = some 0 ∧
      (applyPaymentPatch r stopPatch).status = some "cancelled" ∧
      (applyPaymentPatch r stopPatch).stripeCustomerId = some "" ∧
      (applyPaymentPatch r stopPatch).stripeSubscriptionId = some "" ∧
      (applyPaymentPatch r stopPatch).stripePaymentIntentId = some "" ∧
      (applyPaymentPatch r stopPatch).stripeSessionId = some "" ∧
      (applyPaymentPatch r stopPatch).status ≠ some "completed" := by
  have hτ2 : jsTrim (extractMessageText (selectPayload body)) ≠ "" := by
    intro hemp
    rw [hemp] at hkw
    exact absurd hkw (by decide)
  have hτ1 : extractMessageText (selectPayload body) ≠ "" := by
    intro hemp
    apply hτ2
    rw [hemp]
    rfl
  have hpost : POST (some body) t e s c f = postBody body t e s c f := rfl
  rw [hpost, postBody_noDup body t e s c f mid hch hm hnd,
      mainFlow_valid body mid t e s c f φ hph hφ1 hφ2 hτ1 hτ2]
  set τ := extractMessageText (selectPayload body) with hτdef
  set cid := extractConversationId body (selectPayload body) with hciddef
  set np := stripWs φ with hnpdef
  rcases hfind : findByPhone s np with _ | pr
  · rw [persistAndDispatch_create np τ cid mid t e s c f hf1 hf2 hfind]
    dsimp only
    rw [runKeywords_stop np τ cid t e (createPhoneRecord s np τ) f hkw]
    dsimp only
    have hr1 : findPaymentByPhone (createPhoneRecord s np τ) np = some r := by
      rw [findPaymentByPhone_ext _ s np (createPhoneRecord_payments s np τ)]
      exact hr
    rw [processStopRequest_some np (createPhoneRecord s np τ) f r hf3 hf4 hr1]
    dsimp only
    rw [findPaymentByPhone_after_update (createPhoneRecord s np τ) np stopPatch r hr1]
    refine ⟨rfl, rfl, rfl, rfl, rfl, rfl, rfl, rfl, ?_⟩
    intro hcon
    rw [show (applyPaymentPatch r stopPatch).status = some "cancelled" from rfl] at hcon
    exact absurd hcon (by decide)
  · rw [persistAndDispatch_update np τ cid mid t e s c f pr hf1 hf2 hfind]
    dsimp only
    rw [runKeywords_stop np τ cid t e (updatePhoneRecord s pr.rid np τ) f hkw]
    dsimp only
    have hr1 : findPaymentByPhone (updatePhoneRecord s pr.rid np τ) np = some r := by
      rw [findPaymentByPhone_ext _ s np (updatePhoneRecord_payments s pr.rid np τ)]
      exact hr
    rw [processStopRequest_some np (updatePhoneRecord s pr.rid np τ) f r hf3 hf4 hr1]
    dsimp only
    rw [findPaymentByPhone_after_update (updatePhoneRecord s pr.rid np τ) np stopPatch r hr1]
    refine ⟨rfl, rfl, rfl, rfl, rfl, rfl, rfl, rfl, ?_⟩
    intro hcon
    rw [show (applyPaymentPatch r stopPatch).status = some "cancelled" from rfl] at hcon
    exact absurd hcon (by decide)

/-- Claim C6 witness: the theorem evaluated on the "stop" delivery
against the store holding the active paid record `payRec`. -/
theorem C6_witness :
    findPaymentByPhone (POST (some pStop) tEx eEx sPay [] noFaults).store "+15551230000" =
        some (applyPaymentPatch payRec stopPatch) ∧
      (applyPaymentPatch payRec stopPatch).tier = some "free" ∧
      (applyPaymentPatch payRec stopPatch).amount = some 0 ∧
      (applyPaymentPatch payRec stopPatch).status = some "cancelled" ∧
      (applyPaymentPatch payRec stopPatch).stripeCustomerId = some "" ∧
      (applyPaymentPatch payRec stopPatch).stripeSubscriptionId = some "" ∧
      (applyPaymentPatch payRec stopPatch).stripePaymentIntentId = some "" ∧
      (applyPaymentPatch payRec stopPatch).stripeSessionId = some "" ∧
      (applyPaymentPatch payRec stopPatch).status ≠ some "completed" :=
  C6_stop_cancels_payment pStop tEx eEx sPay [] noFaults "+15551230000" "10" none payRec
    rfl rfl (fun m h => Option.noConfusion h) rfl (by decide) (by decide) rfl rfl rfl
    (by decide) (by decide) rfl rfl rfl rfl rfl

/-- Claim C5: for an UNSUB message (any letter case) from a phone whose
Payment Record has a truthy non-free tier, status "active" and a stored
subscription id, the handler causes exactly one Payments Gateway
cancellation call, carrying the stored subscription id (regardless of
whether that call succeeds — `f.stripeCancelThrows` is unconstrained),
and afterwards the Payment Record has tier "free", amount 0, status
"completed", and all four external identifier fields cleared to the
empty string. -/
theorem C5_unsub_cancels_subscription (body : JValue) (t : Templates) (e : Env)
    (s : RecordStore) (c : List String) (f : Faults) (φ tier σ : String)
    (mid : Option String) (r : PaymentRec)
    (hch : isChallengeReq body = false)
    (hm : midOf body = mid) (hnd : ∀ m, mid = some m → m ∉ c)
    (hph : extractSenderNumber (selectPayload body) = .jstr φ)
    (hφ1 : φ ≠ "") (hφ2 : φ ≠ "Unknown")
    (hkw : jsToUpper (jsTrim (extractMessageText (selectPayload body))) = "UNSUB")
    (hr : findPaymentByPhone s (stripWs φ) = some r)
    (htier : r.tier = some tier) (ht1 : tier ≠ "") (ht2 : tier ≠ "free")
    (hact : r.status = some "active")
    (hσ : r.stripeSubscriptionId = some σ) (hσ1 : σ ≠ "")
    (hf1 : f.findByPhoneThrows = false) (hf2 : f.phoneWriteThrows = false)
    (hf3 : f.findPaymentThrows = false) (hf4 : f.paymentUpdateThrows = false) :
    (POST (some body) t e s c f).trace.countP isCancel = 1 ∧
      Effect.stripeCancel σ ∈ (POST (some body) t e s c f).trace ∧
      findPaymentByPhone (POST (some body) t e s c f).store (stripWs φ) =
        some (applyPaymentPatch r unsubPatch) ∧
      (applyPaymentPatch r unsubPatch).tier = some "free" ∧
      (applyPaymentPatch r unsubPatch).amount = some 0 ∧
      (applyPaymentPatch r unsubPatch).status = some "completed" ∧
      (applyPaymentPatch r unsubPatch).stripeCustomerId = some "" ∧
      (applyPaymentPatch r unsubPatch).stripeSubscriptionId = some "" ∧
      (applyPaymentPatch r unsubPatch).stripePaymentIntentId = some "" ∧
      (applyPaymentPatch r unsubPatch).stripeSessionId = some "" := by
  have hτ2 : jsTrim (extractMessageText (selectPayload body)) ≠ "" := by
    intro hemp
    rw [hemp] at hkw
    exact absurd hkw (by decide)
  have hτ1 : extractMessageText (selectPayload body) ≠ "" := by
    intro hemp
    apply hτ2
    rw [hemp]
    rfl
  have hg : (!strTruthy r.tier || r.tier == some "free" || !(r.status == some "active"))
      = false := by
    simp [strTruthy, htier, hact, ht1, ht2]
  have hct : strTruthy r.stripeSubscriptionId = true := by
    simp [strTruthy, hσ, hσ1]
  have hgd : r.stripeSubscriptionId.getD "" = σ := by
    rw [hσ]
    rfl
  have hpost : POST (some body) t e s c f = postBody body t e s c f := rfl
  rw [hpost, postBody_noDup body t e s c f mid hch hm hnd,
      mainFlow_valid body mid t e s c f φ hph hφ1 hφ2 hτ1 hτ2]
  set τ := extractMessageText (selectPayload body) with hτdef
  set cid := extractConversationId body (selectPayload body) with hciddef
  set np := stripWs φ with hnpdef
  rcases hfind : findByPhone s np with _ | pr
  · rw [persistAndDispatch_create np τ cid mid t e s c f hf1 hf2 hfind]
    dsimp only
    rw [runKeywords_unsub np τ cid t e (createPhoneRecord s np τ) f hkw]
    dsimp only
    have hr1 : findPaymentByPhone (createPhoneRecord s np τ) np = some r := by
      rw [findPaymentByPhone_ext _ s np (createPhoneRecord_payments s np τ)]
      exact hr
    rw [processUnsubscription_active np (createPhoneRecord s np τ) f r hf3 hf4 hr1 hg]
    dsimp only
    simp only [hct, hgd, if_true]
    have hnc := sendSMSInConversation_no_cancel np t.unsubReply cid f
    refine ⟨?_, ?_, ?_, rfl, rfl, rfl, rfl, rfl, rfl, rfl⟩
    · simp [List.countP_cons, List.countP_append, isCancel, sendUnsubReply, hnc]
    · simp [sendUnsubReply, List.mem_append]
    · rw [findPaymentByPhone_after_update (createPhoneRecord s np τ) np unsubPatch r hr1]
  · rw [persistAndDispatch_update np τ cid mid t e s c f pr hf1 hf2 hfind]
    dsimp only
    rw [runKeywords_unsub np τ cid t e (updatePhoneRecord s pr.rid np τ) f hkw]
    dsimp only
    have hr1 : findPaymentByPhone (updatePhoneRecord s pr.rid np τ) np = some r := by
      rw [findPaymentByPhone_ext _ s np (updatePhoneRecord_payments s pr.rid np τ)]
      exact hr
    rw [processUnsubscription_active np (updatePhoneRecord s pr.rid np τ) f r hf3 hf4 hr1 hg]
    dsimp only
    simp only [hct, hgd, if_true]
    have hnc := sendSMSInConversation_no_cancel np t.unsubReply cid f
    refine ⟨?_, ?_, ?_, rfl, rfl, rfl, rfl, rfl, rfl, rfl⟩
    · simp [List.countP_cons, List.countP_append, isCancel, sendUnsubReply, hnc]
    · simp [sendUnsubReply, List.mem_append]
    · rw [findPaymentByPhone_after_update (updatePhoneRecord s pr.rid np τ) np unsubPatch r hr1]

/-- Claim C5 witness: the theorem evaluated on the lowercase "unsub"
delivery against the store holding `payRec` (subscription id "sub_1"). -/
theorem C5_witness :
    (POST (some pUnsub) tEx eEx sPay [] noFaults).trace.countP isCancel = 1 ∧
      Effect.stripeCancel "sub_1" ∈ (POST (some pUnsub) tEx eEx sPay [] noFaults).trace ∧
      findPaymentByPhone (POST (some pUnsub) tEx eEx sPay [] noFaults).store "+15551230000" =
        some (applyPaymentPatch payRec unsubPatch) ∧
      (applyPaymentPatch payRec unsubPatch).tier = some "free" ∧
      (applyPaymentPatch payRec unsubPatch).amount = some 0 ∧
      (applyPaymentPatch payRec unsubPatch).status = some "completed" ∧
      (applyPaymentPatch payRec unsubPatch).stripeCustomerId = some "" ∧
      (applyPaymentPatch payRec unsubPatch).stripeSubscriptionId = some "" ∧
      (applyPaymentPatch payRec unsubPatch).stripePaymentIntentId = some "" ∧
      (applyPaymentPatch payRec unsubPatch).stripeSessionId = some "" :=
  C5_unsub_cancels_subscription pUnsub tEx eEx sPay [] noFaults "+15551230000" "10" "sub_1"
    none payRec rfl rfl (fun m h => Option.noConfusion h) rfl (by decide) (by decide) rfl
    rfl rfl (by decide) (by decide) rfl rfl (by decide) rfl rfl rfl rfl

/-- Claim C7: for an UNSUB message from a phone with no Payment Record,
or whose record has tier "free" or a status other than "active",
`processUnsubscription` returns false with the lookup as its only Record
Store access (store unchanged, trace exactly the lookup), the handler
performs no mutation of the Payments table and no Payments-table write
attempt, and it still attempts the fixed UNSUB confirmation reply; the
response reports `unsubProcessed = false`. -/
theorem C7_unsub_noop_still_replies (body : JValue) (t : Templates) (e : Env)
    (s : RecordStore) (c : List String) (f : Faults) (φ : String) (mid : Option String)
    (hch : isChallengeReq body = false)
    (hm : midOf body = mid) (hnd : ∀ m, mid = some m → m ∉ c)
    (hph : extractSenderNumber (selectPayload body) = .jstr φ)
    (hφ1 : φ ≠ "") (hφ2 : φ ≠ "Unknown")
    (hkw : jsToUpper (jsTrim (extractMessageText (selectPayload body))) = "UNSUB")
    (hno : findPaymentByPhone s (stripWs φ) = none ∨
           ∃ r, findPaymentByPhone s (stripWs φ) = some r ∧
             (r.tier = some "free" ∨ r.status ≠ some "active"))
    (hf1 : f.findByPhoneThrows = false) (hf2 : f.phoneWriteThrows = false)
    (hf3 : f.findPaymentThrows = false) :
    processUnsubscription (stripWs φ) s f = ⟨false, s, [.findPayment (stripWs φ)]⟩ ∧
      (POST (some body) t e s c f).store.payments = s.payments ∧
      (POST (some body) t e s c f).trace.countP isPaymentWrite = 0 ∧
      (∃ path ph, Effect.sendAttempt path ph t.unsubReply ∈
        (POST (some body) t e s c f).trace) ∧
      ∃ act, (POST (some body) t e s c f).resp =
        .success mid (stripWs φ) (extractMessageText (selectPayload body))
          act false false false := by
  have hτ2 : jsTrim (extractMessageText (selectPayload body)) ≠ "" := by
    intro hemp
    rw [hemp] at hkw
    exact absurd hkw (by decide)
  have hτ1 : extractMessageText (selectPayload body) ≠ "" := by
    intro hemp
    apply hτ2
    rw [hemp]
    rfl
  have key : ∀ s' : RecordStore, s'.payments = s.payments →
      processUnsubscription (stripWs φ) s' f =
        ⟨false, s', [.findPayment (stripWs φ)]⟩ := by
    intro s' hp
    rcases hno with hnone | ⟨r, hsome, hcase⟩
    · refine processUnsubscription_none _ s' f hf3 ?_
      rw [findPaymentByPhone_ext s' s _ hp]
      exact hnone
    · refine processUnsubscription_guard _ s' f r hf3 ?_ ?_
      · rw [findPaymentByPhone_ext s' s _ hp]
        exact hsome
      · rcases hcase with hfree | hnact
        · simp [hfree]
        · simp [hnact]
  refine ⟨key s rfl, ?_⟩
  have hpost : POST (some body) t e s c f = postBody body t e s c f := rfl
  rw [hpost, postBody_noDup body t e s c f mid hch hm hnd,
      mainFlow_valid body mid t e s c f φ hph hφ1 hφ2 hτ1 hτ2]
  set τ := extractMessageText (selectPayload body) with hτdef
  set cid := extractConversationId body (selectPayload body) with hciddef
  set np := stripWs φ with hnpdef
  have hnw := sendSMSInConversation_no_payment_write np t.unsubReply cid f
  obtain ⟨path, ph, hmem⟩ := sendSMSInConversation_attempts np t.unsubReply cid f
  rcases hfind : findByPhone s np with _ | pr
  · rw [persistAndDispatch_create np τ cid mid t e s c f hf1 hf2 hfind]
    dsimp only
    rw [runKeywords_unsub np τ cid t e (createPhoneRecord s np τ) f hkw]
    dsimp only
    rw [key (createPhoneRecord s np τ) (createPhoneRecord_payments s np τ)]
    dsimp only
    refine ⟨createPhoneRecord_payments s np τ, ?_, ?_, ?_⟩
    · simp [List.countP_cons, List.countP_append, isPaymentWrite, sendUnsubReply, hnw]
    · exact ⟨path, ph, by simp [List.mem_cons, List.mem_append, sendUnsubReply, hmem]⟩
    · exact ⟨"created", rfl⟩
  · rw [persistAndDispatch_update np τ cid mid t e s c f pr hf1 hf2 hfind]
    dsimp only
    rw [runKeywords_unsub np τ cid t e (updatePhoneRecord s pr.rid np τ) f hkw]
    dsimp only
    rw [key (updatePhoneRecord s pr.rid np τ) (updatePhoneRecord_payments s pr.rid np τ)]
    dsimp only
    refine ⟨updatePhoneRecord_payments s pr.rid np τ, ?_, ?_, ?_⟩
    · simp [List.countP_cons, List.countP_append, isPaymentWrite, sendUnsubReply, hnw]
    · exact ⟨path, ph, by simp [List.mem_cons, List.mem_append, sendUnsubReply, hmem]⟩
    · exact ⟨"updated", rfl⟩

/-- Claim C7 witness: the theorem evaluated on the "unsub" delivery
against the empty store (no Payment Record). -/
theorem C7_witness :
    processUnsubscription "+15551230000" s0 noFaults =
        ⟨false, s0, [.findPayment "+15551230000"]⟩ ∧
      (POST (some pUnsub) tEx eEx s0 [] noFaults).store.payments = s0.payments ∧
      (POST (some pUnsub) tEx eEx s0 [] noFaults).trace.countP isPaymentWrite = 0 ∧
      (∃ path ph, Effect.sendAttempt path ph tEx.unsubReply ∈
        (POST (some pUnsub) tEx eEx s0 [] noFaults).trace) ∧
      ∃ act, (POST (some pUnsub) tEx eEx s0 [] noFaults).resp =
        .success none "+15551230000" "unsub" act false false false :=
  C7_unsub_noop_still_replies pUnsub tEx eEx s0 [] noFaults "+15551230000" none rfl rfl
    (fun m h => Option.noConfusion h) rfl (by decide) (by decide) rfl (Or.inl rfl)
    rfl rfl rfl

/-- Claim C1 counterexample: the payload `pC1` carries the non-null
event id "m1" but no sender phone, so its first delivery never reaches
the idempotency mark; the second delivery of the same payload is then
answered with the no-phone acknowledgment, not the "duplicate, already
handled" result — refuting "for every pair of calls with the same
non-null event_id, the second returns action duplicate". -/
theorem C1_counterexample :
    midOf pC1 = some "m1" ∧
      (POST (some pC1) tEx eEx
          (POST (some pC1) tEx eEx s0 [] noFaults).store
          (POST (some pC1) tEx eEx s0 [] noFaults).cache noFaults).resp =
        .noPhone (some "m1") ∧
      Resp.noPhone (some "m1") ≠ Resp.duplicate "m1" := by
  exact ⟨rfl, rfl, by decide⟩

/-- Claim C1 (amended): for a pair of deliveries of one payload carrying
the non-null event id `m`, where the *first call completed the full
processing path* (not a challenge, usable phone, non-empty body, and the
Phone Record persistence succeeded), the second call — under any fault
oracle — returns the "duplicate, already handled" result with the store
and cache unchanged and an *empty effect trace*: no Record Store access
or write, no Payments Gateway call, and no outbound send.  The duplicate
check precedes every persistence and messaging call. -/
theorem C1_duplicate_after_completed_delivery (body : JValue) (t : Templates) (e : Env)
    (s : RecordStore) (c : List String) (f f2 : Faults) (φ m : String)
    (hch : isChallengeReq body = false)
    (hm : midOf body = some m) (hmc : m ∉ c)
    (hph : extractSenderNumber (selectPayload body) = .jstr φ)
    (hφ1 : φ ≠ "") (hφ2 : φ ≠ "Unknown")
    (hτ1 : extractMessageText (selectPayload body) ≠ "")
    (hτ2 : jsTrim (extractMessageText (selectPayload body)) ≠ "")
    (hf1 : f.findByPhoneThrows = false) (hf2 : f.phoneWriteThrows = false) :
    (POST (some body) t e s c f).resp.isSuccess = true ∧
      POST (some body) t e (POST (some body) t e s c f).store
          (POST (some body) t e s c f).cache f2 =
        ⟨.duplicate m, (POST (some body) t e s c f).store,
         (POST (some body) t e s c f).cache, []⟩ := by
  have hnd : ∀ m', some m = some m' → m' ∉ c := by
    intro m' h
    injection h with h
    exact h ▸ hmc
  have hpost : POST (some body) t e s c f = postBody body t e s c f := rfl
  rw [hpost, postBody_noDup body t e s c f (some m) hch hm hnd,
      mainFlow_valid body (some m) t e s c f φ hph hφ1 hφ2 hτ1 hτ2]
  set τ := extractMessageText (selectPayload body) with hτdef
  set cid := extractConversationId body (selectPayload body) with hciddef
  set np := stripWs φ with hnpdef
  have hdup : ∀ s' : RecordStore,
      POST (some body) t e s' (addProcessed c m) f2 =
        ⟨.duplicate m, s', addProcessed c m, []⟩ := by
    intro s'
    have : POST (some body) t e s' (addProcessed c m) f2 =
        postBody body t e s' (addProcessed c m) f2 := rfl
    rw [this, postBody_dup body t e s' (addProcessed c m) f2 m hch hm
        (mem_addProcessed c m hmc)]
  rcases hfind : findByPhone s np with _ | pr
  · rw [persistAndDispatch_create np τ cid (some m) t e s c f hf1 hf2 hfind]
    dsimp only
    exact ⟨rfl, hdup _⟩
  · rw [persistAndDispatch_update np τ cid (some m) t e s c f pr hf1 hf2 hfind]
    dsimp only
    exact ⟨rfl, hdup _⟩

/-- Claim C1 witness: the amended theorem evaluated on the complete
delivery `pGood` (event id "m2"); the second delivery is answered as a
duplicate with no side effects. -/
theorem C1_witness :
    (POST (some pGood) tEx eEx s0 [] noFaults).resp.isSuccess = true ∧
      POST (some pGood) tEx eEx (POST (some pGood) tEx eEx s0 [] noFaults).store
          (POST (some pGood) tEx eEx s0 [] noFaults).cache noFaults =
        ⟨.duplicate "m2", (POST (some pGood) tEx eEx s0 [] noFaults).store,
         (POST (some pGood) tEx eEx s0 [] noFaults).cache, []⟩ :=
  C1_duplicate_after_completed_delivery pGood tEx eEx s0 [] noFaults noFaults
    "+1 555 123 0000" "m2" rfl rfl (by decide) rfl (by decide) (by decide)
    (by decide) (by decide) rfl rfl

/-- Claim C10: (i) whenever a call of the handler does not reach the
step-16 success response — a parse failure, a challenge echo, a
duplicate, a validation return, or an internal throw absorbed by the
catch block — the Processed-Event Cache is left unchanged, so an event
id is marked only after persistence and keyword dispatch have run to
completion; (ii) concretely, if the Phone Record write throws on the
first delivery, the handler returns the error acknowledgment with the
cache (and store) unchanged, and a redelivery of the same event id under
a healthy oracle is fully reprocessed — it reaches the success response
and performs the Phone Record write — rather than being answered as a
duplicate. -/
theorem C10_cache_untouched_on_error :
    (∀ (parsed : Option JValue) (t : Templates) (e : Env) (s : RecordStore)
        (c : List String) (f : Faults),
      (POST parsed t e s c f).resp.isSuccess = false →
        (POST parsed t e s c f).cache = c) ∧
    (∀ (body : JValue) (t : Templates) (e : Env) (s : RecordStore) (c : List String)
        (f1 f2 : Faults) (φ m : String),
      isChallengeReq body = false → midOf body = some m → m ∉ c →
      extractSenderNumber (selectPayload body) = .jstr φ → φ ≠ "" → φ ≠ "Unknown" →
      extractMessageText (selectPayload body) ≠ "" →
      jsTrim (extractMessageText (selectPayload body)) ≠ "" →
      f1.findByPhoneThrows = false → f1.phoneWriteThrows = true →
      f2.findByPhoneThrows = false → f2.phoneWriteThrows = false →
      POST (some body) t e s c f1 =
          ⟨.caughtError (some m), s, c,
           [.findPhone (stripWs φ),
            .phoneWrite (stripWs φ) (extractMessageText (selectPayload body))]⟩ ∧
        (POST (some body) t e s c f2).resp.isSuccess = true ∧
        Effect.phoneWrite (stripWs φ) (extractMessageText (selectPayload body)) ∈
          (POST (some body) t e s c f2).trace) := by
  constructor
  · intro parsed t e s c f h
    rcases parsed with _ | body
    · rfl
    · have h' : (postBody body t e s c f).resp.isSuccess = false := h
      rcases postBody_cache_or body t e s c f with hc | hs
      · exact hc
      · rw [hs] at h'
        exact absurd h' (by decide)
  · intro body t e s c f1 f2 φ m hch hm hmc hph hφ1 hφ2 hτ1 hτ2 hf1a hf1b hf2a hf2b
    have hnd : ∀ m', some m = some m' → m' ∉ c := by
      intro m' h
      injection h with h
      exact h ▸ hmc
    refine ⟨?_, ?_⟩
    · have hpost : POST (some body) t e s c f1 = postBody body t e s c f1 := rfl
      rw [hpost, postBody_noDup body t e s c f1 (some m) hch hm hnd,
          mainFlow_valid body (some m) t e s c f1 φ hph hφ1 hφ2 hτ1 hτ2,
          persistAndDispatch_writeThrow (stripWs φ) _ _ (some m) t e s c f1 hf1a hf1b]
    · have hpost2 : POST (some body) t e s c f2 = postBody body t e s c f2 := rfl
      rw [hpost2, postBody_noDup body t e s c f2 (some m) hch hm hnd,
          mainFlow_valid body (some m) t e s c f2 φ hph hφ1 hφ2 hτ1 hτ2]
      rcases hfind : findByPhone s (stripWs φ) with _ | pr
      · rw [persistAndDispatch_create (stripWs φ) _ _ (some m) t e s c f2 hf2a hf2b hfind]
        exact ⟨rfl, List.mem_cons_of_mem _ (List.mem_cons_self _ _)⟩
      · rw [persistAndDispatch_update (stripWs φ) _ _ (some m) t e s c f2 pr hf2a hf2b hfind]
        exact ⟨rfl, List.mem_cons_of_mem _ (List.mem_cons_self _ _)⟩

/-- Claim C10 witness: part (ii) of the theorem evaluated on the
complete delivery `pGood` with a throwing Phone Record write on the
first call and a healthy oracle on the redelivery. -/
theorem C10_witness :
    POST (some pGood) tEx eEx s0 [] fWriteThrow =
        ⟨.caughtError (some "m2"), s0, [],
         [.findPhone "+15551230000", .phoneWrite "+15551230000" "hello"]⟩ ∧
      (POST (some pGood) tEx eEx s0 [] noFaults).resp.isSuccess = true ∧
      Effect.phoneWrite "+15551230000" "hello" ∈
        (POST (some pGood) tEx eEx s0 [] noFaults).trace :=
  C10_cache_untouched_on_error.2 pGood tEx eEx s0 [] fWriteThrow noFaults
    "+1 555 123 0000" "m2" rfl rfl (by decide) rfl (by decide) (by decide)
    (by decide) (by decide) rfl rfl rfl rfl
